import Mathlib

/-!
# Verification of the Trivia Tiles word-validation subsystem

Shallow embedding of the word-validation subsystem of the Trivia Tiles
repository, centred on
`src/trivia-tiles/client/components/hooks/usePuzzleValidation.ts` (the
validation hook: local rules, dictionary client with cache / timeout /
retry / cancellation) and the derived progress state in
`src/trivia-tiles/client/components/AppContent.tsx`.

JavaScript strings are modelled as `List Char`; the shared module-level
`dictionaryCache` (a JS `Map`) is modelled as an insertion-ordered
association list carrying ghost insertion timestamps, so that
"oldest-inserted" is provable rather than assumed.  Asynchronous code is
modelled twice, at two levels of granularity:

* a sequential functional model (`checkDictionaryAPI`, `validateWordSeq`),
  faithful when every remote check settles before the next submission; and
* an event-loop interleaving model (`step` over `GState`), whose atomic
  steps are the synchronous segments between `await` suspension points,
  used for the cancellation / in-flight-request claims.
-/

namespace TriviaTiles

/-- A JavaScript string, modelled as its list of characters. -/
abbrev Word := List Char

instance {ε α : Type} [DecidableEq ε] [DecidableEq α] : DecidableEq (Except ε α)
  | .ok a, .ok b => if h : a = b then .isTrue (by rw [h]) else .isFalse (by simp [h])
  | .ok _, .error _ => .isFalse (by simp)
  | .error _, .ok _ => .isFalse (by simp)
  | .error a, .error b => if h : a = b then .isTrue (by rw [h]) else .isFalse (by simp [h])

/-- JS `String.prototype.trim`: drop whitespace from both ends. -/
def trim (w : Word) : Word :=
  ((w.dropWhile Char.isWhitespace).reverse.dropWhile Char.isWhitespace).reverse

/-- JS `String.prototype.toLowerCase` (ASCII-faithful approximation). -/
def toLowerW (w : Word) : Word := w.map Char.toLower

/-- JS `String.prototype.toUpperCase` (ASCII-faithful approximation). -/
def toUpperW (w : Word) : Word := w.map Char.toUpper

/-- JS `haystack.includes(needle)`: substring containment. -/
def jsIncludes (haystack needle : Word) : Bool :=
  haystack.tails.any fun t => needle.isPrefixOf t

/-- Substring test on Lean `String`s (used for `error.message.includes(...)`). -/
def strIncludes (haystack needle : String) : Bool :=
  jsIncludes haystack.toList needle.toList

/-- `usePuzzleValidation.ts` line 361: `word.trim().toLowerCase()`. -/
def normalize (w : Word) : Word := toLowerW (trim w)

/-! ## Error model (`usePuzzleValidation.ts` lines 10-36, 142-192) -/

/-- `DictionaryErrorType` enum (lines 10-18). -/
inductive DictionaryErrorType
  | NETWORK_ERROR
  | API_RATE_LIMIT
  | API_UNAVAILABLE
  | WORD_NOT_FOUND
  | INVALID_RESPONSE
  | TIMEOUT
  | UNKNOWN
deriving DecidableEq, Repr

open DictionaryErrorType

/-- A thrown JS error value, reduced to the two fields the hook inspects. -/
structure JSError where
  name : String
  message : String
deriving DecidableEq, Repr

/-- An HTTP response, reduced to its status; `response.ok` is derived. -/
structure JSResponse where
  status : Nat
deriving DecidableEq, Repr

/-- WHATWG fetch: `ok` means status in the range 200-299. -/
def JSResponse.ok (r : JSResponse) : Bool := 200 ≤ r.status && r.status ≤ 299

/-- The TypeError raised by `error.name` when `error` is `null`
    (`getErrorType(null, response)` is called this way at line 265). -/
def nullNameError : JSError :=
  ⟨"TypeError", "Cannot read properties of null (reading 'name')"⟩

/-- The HTTP-status classification of `getErrorType` (lines 154-164). -/
def statusErrorType (status : Nat) : DictionaryErrorType :=
  if status == 429 then API_RATE_LIMIT
  else if status ≥ 500 then API_UNAVAILABLE
  else if status == 404 then WORD_NOT_FOUND
  else UNKNOWN

/-- `getErrorType` (lines 142-167) for a non-null `error` argument. -/
def getErrorTypeCore (e : JSError) (response : Option JSResponse) :
    DictionaryErrorType :=
  if e.name == "TypeError" && strIncludes e.message "fetch" then
    NETWORK_ERROR
  else if e.name == "AbortError" && strIncludes e.message "timeout" then
    TIMEOUT
  else
    match response with
    | some r => statusErrorType r.status
    | none => UNKNOWN

/-- `getErrorType(error, response?)` including the `error = null` call at
    line 265: dereferencing `error.name` on `null` throws a TypeError
    before any classification happens. -/
def getErrorType (e : Option JSError) (response : Option JSResponse) :
    Except JSError DictionaryErrorType :=
  match e with
  | none => .error nullNameError
  | some e => .ok (getErrorTypeCore e response)

/-- `getErrorMessage` (lines 175-192). -/
def getErrorMessage : DictionaryErrorType → String
  | NETWORK_ERROR => "No internet connection. Please check your network and try again."
  | API_RATE_LIMIT => "Too many requests. Please wait a moment and try again."
  | API_UNAVAILABLE => "Dictionary service is temporarily unavailable. Please try again later."
  | TIMEOUT => "Request timed out. Please try again."
  | WORD_NOT_FOUND => "Not a valid English word."
  | INVALID_RESPONSE => "Received invalid data. Please try again."
  | UNKNOWN => "Error validating word. Please try again."

/-- A value caught by the `catch` blocks: either a plain JS error or a
    `DictionaryAPIError` (whose `name` is `"DictionaryAPIError"`). -/
inductive CaughtErr
  | js (e : JSError)
  | api (t : DictionaryErrorType) (message : String)
deriving DecidableEq, Repr

/-- `error.name` of a caught value (`DictionaryAPIError` sets
    `this.name = 'DictionaryAPIError'`, line 34). -/
def CaughtErr.name : CaughtErr → String
  | .js e => e.name
  | .api _ _ => "DictionaryAPIError"

/-- `error.message` of a caught value. -/
def CaughtErr.message : CaughtErr → String
  | .js e => e.message
  | .api _ m => m

/-- Line 293: aborted (non-timeout) requests are re-thrown untouched. -/
def isAbortRethrow (c : CaughtErr) : Bool :=
  c.name == "AbortError" && !(strIncludes c.message "timeout")

/-- Lines 299-301: `error instanceof DictionaryAPIError ? error.type :
    getErrorType(error, response)`; `response` is the local variable set at
    line 257 (present only when `fetch` itself resolved). -/
def classifyCaught (c : CaughtErr) (response : Option JSResponse) :
    DictionaryErrorType :=
  match c with
  | .api t _ => t
  | .js e => getErrorTypeCore e response

/-! ## API configuration (`API_CONFIG`, lines 89-95) -/

def API_CONFIG_TIMEOUT_MS : Nat := 5000
def API_CONFIG_MAX_RETRIES : Nat := 2
def API_CONFIG_RETRY_DELAY_MS : Nat := 1000
def API_CONFIG_CACHE_SIZE_LIMIT : Nat := 1000

/-- Lines 305-309: the list of retryable error kinds. -/
def retryableKinds : List DictionaryErrorType :=
  [NETWORK_ERROR, API_UNAVAILABLE, TIMEOUT]

/-! ## The dictionary cache (`dictionaryCache`, line 81)

A JS `Map` iterates in insertion order, and `set` on an existing key keeps
the entry's position.  We model the map as a list ordered oldest-first and
attach a ghost `insertedAt` timestamp (a counter incremented at every fresh
insertion) so that "oldest-inserted" is a provable property of the head. -/

structure CacheEntry where
  key : Word
  isValid : Bool
  insertedAt : Nat
deriving DecidableEq, Repr

structure Cache where
  entries : List CacheEntry
  clock : Nat
deriving DecidableEq, Repr

def Cache.empty : Cache := ⟨[], 0⟩

/-- `dictionaryCache.get(word)` combined with `has`. -/
def Cache.get? (c : Cache) (w : Word) : Option Bool :=
  (c.entries.find? (·.key == w)).map (·.isValid)

def Cache.size (c : Cache) : Nat := c.entries.length

/-- `dictionaryCache.set(word, isValid)` (line 287): overwrite in place if
    the key exists (JS Maps keep the original insertion position), append
    with a fresh timestamp otherwise. -/
def Cache.set (c : Cache) (w : Word) (v : Bool) : Cache :=
  if (c.entries.find? (·.key == w)).isSome then
    ⟨c.entries.map fun e => if e.key == w then { e with isValid := v } else e,
     c.clock⟩
  else
    ⟨c.entries ++ [⟨w, v, c.clock⟩], c.clock + 1⟩

/-- Lines 245-249: if the cache is at capacity, delete
    `dictionaryCache.keys().next().value` — the oldest entry.  The source
    guards the delete with `if (firstKey)`, so an empty-string first key
    (falsy in JS) is *not* deleted. -/
def Cache.evictIfAtCapacity (c : Cache) : Cache :=
  if c.size ≥ API_CONFIG_CACHE_SIZE_LIMIT then
    match c.entries with
    | [] => c
    | e :: rest => if e.key = [] then c else ⟨rest, c.clock⟩
  else c

/-! ## Fetch attempt outcomes and the dictionary client

`checkDictionaryAPI` (lines 233-332) interacts with the network through
`fetchWithTimeout`/`fetch` and `response.json()`.  The environment's
behaviour for one attempt is a `FetchOutcome`; a whole run is driven by an
oracle `Nat → FetchOutcome` giving the outcome of each attempt (indexed by
`retryCount`). -/

/-- What `data[0]?.word` can see in one entry of the parsed JSON array:
    `none` models a nullish entry or an entry without a `word` field. -/
structure DictEntry where
  word : Option String
deriving DecidableEq, Repr

/-- The value produced by `await response.json()`. -/
inductive DictJson
  | arr (entries : List DictEntry)
  | nonArray
deriving DecidableEq, Repr

/-- What `await response.json()` does: yield a value or reject. -/
inductive RespBody
  | json (d : DictJson)
  | throws (e : JSError)
deriving DecidableEq, Repr

/-- The outcome of one `fetch` attempt as seen by `checkDictionaryAPI`:
    the fetch either resolves with a response (whose body is consumed only
    when the status is ok) or rejects with a JS error (network failure,
    abort, ...). -/
inductive FetchOutcome
  | resolved (status : Nat) (body : RespBody)
  | rejected (e : JSError)
deriving DecidableEq, Repr

/-- Line 284: `data.length > 0 && data[0]?.word !== undefined`. -/
def dataIndicatesValid (entries : List DictEntry) : Bool :=
  entries.length > 0 &&
    match entries.head? with
    | some e => e.word.isSome
    | none => false

/-- Observable events of a run (network issue / retry delay on the
    sequential model, plus abort and acceptance on the event-loop model). -/
inductive Event
  | fetchIssued (w : Word) (retryCount : Nat)
  | slept (ms : Nat)
  | abortCalled (ctrl : Nat)
  | wordAccepted (w : Word)
deriving DecidableEq, Repr

/-- The result of the `try` body of one attempt (lines 255-290), before the
    `catch` block runs: either a definitive validity (cached by the
    caller's code path) or a caught error together with the `response`
    local variable (set at line 257 iff `fetch` resolved). -/
inductive AttemptRes
  | done (isValid : Bool)
  | caught (c : CaughtErr) (response : Option JSResponse)
deriving DecidableEq, Repr

/-- One attempt's `try` body (lines 255-290):
    * non-ok response: `getErrorType(null, response)` at line 265 throws a
      TypeError (null dereference) before the intended
      `DictionaryAPIError` is ever constructed; that TypeError is what the
      `catch` block receives (with `response` set);
    * ok response, non-array JSON: `DictionaryAPIError(INVALID_RESPONSE,
      'API response is not an array')` is thrown;
    * ok response, array JSON: definitive validity per line 284;
    * `response.json()` rejecting or `fetch` rejecting: the raw error. -/
def runAttempt (o : FetchOutcome) : AttemptRes :=
  match o with
  | .resolved status body =>
    let r : JSResponse := ⟨status⟩
    if r.ok then
      match body with
      | .json (.arr entries) => .done (dataIndicatesValid entries)
      | .json .nonArray =>
        .caught (.api INVALID_RESPONSE "API response is not an array") (some r)
      | .throws e => .caught (.js e) (some r)
    else
      match getErrorType none (some r) with
      | .error thrown => .caught (.js thrown) (some r)
      | .ok t => .caught (.api t ("API returned status " ++ toString status)) (some r)
  | .rejected e => .caught (.js e) none

/-- `checkDictionaryAPI(word, signal, retryCount)` (lines 233-332) in the
    sequential setting (no concurrent cancellation; the event-loop model
    below covers that).  Returns the cache after the run, the result
    (`Except` models a throw), and the trace of events.

    `fuel` is a termination artifact only: the recursion of the source is
    on `retryCount + 1` and is bounded because `shouldRetry` requires
    `retryCount < API_CONFIG.MAX_RETRIES`; any `fuel > API_CONFIG_MAX_RETRIES
    - retryCount` makes the fuel branch unreachable. -/
def checkDictionaryAPI (oracle : Nat → FetchOutcome) (word : Word)
    (cache : Cache) (retryCount : Nat) (fuel : Nat) :
    Cache × Except CaughtErr Bool × List Event :=
  -- Lines 239-242: cache hit returns immediately, no request issued.
  match cache.get? word with
  | some v => (cache, .ok v, [])
  | none =>
    -- Lines 245-249: capacity-driven eviction, before the request.
    let c1 := cache.evictIfAtCapacity
    match runAttempt (oracle retryCount) with
    | .done b =>
      -- Lines 284-290: cache the definitive result, then return it.
      (c1.set word b, .ok b, [.fetchIssued word retryCount])
    | .caught c response =>
      -- Line 293: aborted (non-timeout) requests are re-thrown as-is.
      if isAbortRethrow c then
        (c1, .error c, [.fetchIssued word retryCount])
      else
        -- Lines 299-309: classification and the retry decision.
        let errorType := classifyCaught c response
        if decide (retryCount < API_CONFIG_MAX_RETRIES) &&
            retryableKinds.contains errorType then
          match fuel with
          | 0 => (c1, .error (.api errorType (getErrorMessage errorType)),
                  [.fetchIssued word retryCount])
          | fuel' + 1 =>
            -- Lines 311-318: sleep RETRY_DELAY_MS, then recurse.
            let (c2, res, evs) :=
              checkDictionaryAPI oracle word c1 (retryCount + 1) fuel'
            (c2, res,
             .fetchIssued word retryCount :: .slept API_CONFIG_RETRY_DELAY_MS :: evs)
        else
          -- Lines 325-330: surface a user-facing DictionaryAPIError.
          (c1, .error (.api errorType (getErrorMessage errorType)),
           [.fetchIssued word retryCount])

/-- The source's entry point calls with `retryCount = 0` (line 420); fuel
    `MAX_RETRIES + 1` covers the at most `MAX_RETRIES + 1` attempts. -/
def checkDictionaryAPIRun (oracle : Nat → FetchOutcome) (word : Word)
    (cache : Cache) : Cache × Except CaughtErr Bool × List Event :=
  checkDictionaryAPI oracle word cache 0 (API_CONFIG_MAX_RETRIES + 1)

/-! ## The word validator (`validateWord`, lines 348-459)

Configuration comes from the hook props (`centerLetter`, `minWordLength`
defaulting to 4).  `AppContent.tsx` wires `validWords := foundWords` (the
accepted-word list) and `onValidWord := handleValidWord` (which appends to
`foundWords`), so the session state below carries `foundWords` directly. -/

structure ValidationConfig where
  centerLetter : Word
  minWordLength : Nat := 4
deriving DecidableEq, Repr

/-- Line 374: rule 1's rejection message. -/
def lengthMsg (min : Nat) : String :=
  "Words must be at least " ++ toString min ++ " letters long."

/-- Line 379: rule 2's rejection message. -/
def centerMsg (centerLetter : Word) : String :=
  "Word must contain the letter \"" ++ String.mk (toUpperW centerLetter) ++ "\"."

/-- Line 384: rule 3's rejection message. -/
def duplicateMsg : String := "You already found this word!"

/-- Line 430: the message shown when the dictionary says invalid. -/
def notAValidWordMsg : String := "Not a valid English word."

/-- Line 444: the fallback message for non-`DictionaryAPIError` failures. -/
def genericErrorMsg : String := "Error validating word. Please try again."

/-- Rule 1 (line 373): `normalizedWord.length >= minWordLength`. -/
def lengthRuleOk (cfg : ValidationConfig) (n : Word) : Bool :=
  n.length ≥ cfg.minWordLength

/-- Rule 2 (line 378): `normalizedWord.includes(centerLetter.toLowerCase())`. -/
def centerRuleOk (cfg : ValidationConfig) (n : Word) : Bool :=
  jsIncludes n (toLowerW cfg.centerLetter)

/-- Rule 3 (line 383): `!validWords.some(w => w.toLowerCase() === normalizedWord)`. -/
def duplicateRuleOk (foundWords : List Word) (n : Word) : Bool :=
  !(foundWords.any fun w => toLowerW w == n)

/-- Lines 370-402: the ordered client-side checks, first failure wins.
    `none` means all three rules passed. -/
def localRuleFailure (cfg : ValidationConfig) (foundWords : List Word)
    (n : Word) : Option String :=
  if !lengthRuleOk cfg n then some (lengthMsg cfg.minWordLength)
  else if !centerRuleOk cfg n then some (centerMsg cfg.centerLetter)
  else if !duplicateRuleOk foundWords n then some duplicateMsg
  else none

/-- The observable outcome of one `validateWord` call. -/
inductive Outcome
  | accepted (w : Word)
  | rejectedLocal (message : String)
  | rejectedRemote
  | errored (t : CaughtErr)
deriving DecidableEq, Repr

/-- Session state threaded through sequential `validateWord` calls:
    `foundWords` is `AppContent`'s accepted-word list (append-only via
    `handleValidWord`), `cache` the module-level dictionary cache,
    `errorMessage` the hook's error state. -/
structure SessState where
  foundWords : List Word
  cache : Cache
  errorMessage : Option String
deriving DecidableEq, Repr

def SessState.initial : SessState := ⟨[], Cache.empty, none⟩

/-- One sequential `validateWord(word)` call (lines 348-459), with the
    remote environment given by `oracle`.  Faithful to the source when the
    call runs to completion before the next submission (cancellation never
    fires); the event-loop model below drops that assumption.

    * lines 357-361: clear the error, normalize;
    * lines 370-402: ordered local rules, short-circuit, no API call on
      failure;
    * lines 415-438: remote check; on `true`, `onValidWord(normalizedWord)`
      appends to `foundWords` and the error is cleared; on `false` the
      not-a-word message is set;
    * lines 439-453: thrown errors set a message unless they are non-timeout
      `AbortError`s. -/
def validateWordSeq (cfg : ValidationConfig) (st : SessState) (input : Word)
    (oracle : Nat → FetchOutcome) : SessState × Outcome × List Event :=
  let st0 := { st with errorMessage := none }
  let n := normalize input
  match localRuleFailure cfg st0.foundWords n with
  | some msg => ({ st0 with errorMessage := some msg }, .rejectedLocal msg, [])
  | none =>
    match checkDictionaryAPIRun oracle n st0.cache with
    | (cache', .ok true, evs) =>
      ({ st0 with cache := cache'
                  foundWords := st0.foundWords ++ [n]
                  errorMessage := none },
       .accepted n, evs ++ [.wordAccepted n])
    | (cache', .ok false, evs) =>
      ({ st0 with cache := cache', errorMessage := some notAValidWordMsg },
       .rejectedRemote, evs)
    | (cache', .error e, evs) =>
      -- Line 441: `error.name !== 'AbortError' || error.message?.includes('timeout')`.
      if e.name != "AbortError" || strIncludes e.message "timeout" then
        let msg := match e with
          | .api _ m => m        -- `error instanceof DictionaryAPIError`
          | .js _ => genericErrorMsg
        ({ st0 with cache := cache', errorMessage := some msg }, .errored e, evs)
      else
        ({ st0 with cache := cache' }, .errored e, evs)

/-- A sequence of submissions, run back to back. -/
def runSession (cfg : ValidationConfig) (st : SessState)
    (subs : List (Word × (Nat → FetchOutcome))) : SessState :=
  subs.foldl (fun s sub => (validateWordSeq cfg s sub.1 sub.2).1) st

/-! ## Puzzle progress (`AppContent.tsx`, lines 37-40)

`progress = foundWords.length / puzzleData.validWords.length`, and `0`
when no puzzle is loaded or the puzzle's word list is empty. -/

def progress (totalWords : Nat) (foundCount : Nat) : ℚ :=
  if totalWords = 0 then 0 else (foundCount : ℚ) / (totalWords : ℚ)

/-! ## The `fetchWithTimeout` timer (lines 200-219)

The timer callback runs `if (options.signal && 'abort' in options.signal)
(options.signal as any).abort(new Error('timeout'))`.  Per the WHATWG DOM
standard an `AbortSignal` instance exposes no `abort` member — `abort` is a
method of `AbortController` (and a static of `AbortSignal`, which is not on
instances) — so the `'abort' in options.signal` guard is false in a
standards-compliant runtime. -/

/-- Members reachable on a standard `AbortSignal` instance through its
    prototype chain (`AbortSignal` then `EventTarget`), per WHATWG DOM. -/
def abortSignalInstanceMembers : List String :=
  ["aborted", "reason", "onabort", "throwIfAborted",
   "addEventListener", "removeEventListener", "dispatchEvent"]

/-- State of an `AbortSignal`. -/
structure SignalState where
  aborted : Bool
  reason : Option JSError
deriving DecidableEq, Repr

/-- Lines 205-209: what the `setTimeout(..., timeoutMs)` callback does to
    the signal of the in-flight request. -/
def fetchTimeoutTimerFire (s : SignalState) : SignalState :=
  if abortSignalInstanceMembers.contains "abort" then
    { aborted := true, reason := some ⟨"Error", "timeout"⟩ }
  else
    s

/-! ## Event-loop interleaving model

Atomic steps are the synchronous segments between `await` suspension points
of `validateWord` / `checkDictionaryAPI`, each followed by its microtask
drain (microtask queues drain completely before the next macrotask, so a
settled promise's whole continuation chain — JSON interpretation, cache
write, `validateWord`'s `try`/`catch`/`finally` — runs without any user
event interleaving).  The scheduler (user events, network completions,
timers) picks the order of steps.

A task is one `validateWord` call whose remote check is suspended, either
on an in-flight `fetch` or on the retry delay (`setTimeout`, line 315 —
which an abort does *not* cancel). -/

inductive TPhase
  | fetching
  | sleeping
deriving DecidableEq, Repr

structure VTask where
  id : Nat
  word : Word          -- the normalized word under validation
  ctrl : Nat           -- the AbortController created for this call (line 358)
  retryCount : Nat
  phase : TPhase
deriving DecidableEq, Repr

/-- Global state of the hook instance plus its collaborators: the React
    refs/state, the module-level cache, `AppContent`'s `foundWords`, the
    set of aborted controllers, and the suspended tasks. -/
structure GState where
  foundWords : List Word
  cache : Cache
  errorMessage : Option String
  current : Option Nat       -- abortControllerRef.current (line 126)
  abortedCtrls : List Nat
  nextCtrl : Nat
  nextTaskId : Nat
  tasks : List VTask
deriving DecidableEq, Repr

def GState.initial : GState := ⟨[], Cache.empty, none, none, [], 0, 0, []⟩

/-- Scheduler choices: a user submission, the settlement of a task's
    in-flight fetch with a given outcome, or the firing of a task's retry
    timer. -/
inductive SchedStep
  | submit (input : Word)
  | settleFetch (taskId : Nat) (o : FetchOutcome)
  | wakeRetry (taskId : Nat)
deriving DecidableEq, Repr

/-- The continuation of `validateWord` after `await checkDictionaryAPI`
    resolves with `b` (lines 423-438) plus the `finally` (lines 454-458):
    apply the side effects — `onValidWord` / error message — and null out
    `abortControllerRef.current`.  The source checks no cancellation signal
    here. -/
def applyResolved (s : GState) (w : Word) (b : Bool) : GState × List Event :=
  if b then
    ({ s with foundWords := s.foundWords ++ [w], errorMessage := none,
              current := none },
     [.wordAccepted w])
  else
    ({ s with errorMessage := some notAValidWordMsg, current := none }, [])

/-- The continuation of `validateWord` when `checkDictionaryAPI` rejects
    with `e` (lines 439-453) plus the `finally`: non-`AbortError`s (and
    timeout-flagged aborts) set a message; the controller ref is nulled
    either way — even when this call is no longer the current one. -/
def applyRejected (s : GState) (e : CaughtErr) : GState :=
  if e.name != "AbortError" || strIncludes e.message "timeout" then
    let msg := match e with
      | .api _ m => m
      | .js _ => genericErrorMsg
    { s with errorMessage := some msg, current := none }
  else
    { s with current := none }

/-- Remove a task from the task list. -/
def GState.dropTask (s : GState) (tid : Nat) : GState :=
  { s with tasks := s.tasks.filter (·.id ≠ tid) }

/-- One atomic step of the event loop. -/
def step (cfg : ValidationConfig) (s : GState) : SchedStep → GState × List Event
  | .submit input =>
    -- Lines 352-354: abort any existing controller (the ref, if non-null).
    let (s1, evs1) : GState × List Event :=
      match s.current with
      | some c => ({ s with abortedCtrls := c :: s.abortedCtrls }, [.abortCalled c])
      | none => (s, [])
    -- Lines 357-358: clear the error, install a fresh controller.
    let ctrl := s1.nextCtrl
    let s2 := { s1 with errorMessage := none, current := some ctrl,
                        nextCtrl := ctrl + 1 }
    let n := normalize input
    match localRuleFailure cfg s2.foundWords n with
    | some msg =>
      -- Lines 389-402: local rejection, no remote call, early return.
      ({ s2 with errorMessage := some msg }, evs1)
    | none =>
      match s2.cache.get? n with
      | some v =>
        -- Lines 239-242 then 423-438: a cache hit resolves within this
        -- step's microtask drain; the result is applied unconditionally.
        let (s3, evs2) := applyResolved s2 n v
        (s3, evs1 ++ evs2)
      | none =>
        -- Lines 245-261: evict if at capacity, then issue the request.
        let s3 := { s2 with cache := s2.cache.evictIfAtCapacity }
        ({ s3 with tasks := s3.tasks ++ [⟨s3.nextTaskId, n, ctrl, 0, .fetching⟩],
                   nextTaskId := s3.nextTaskId + 1 },
         evs1 ++ [.fetchIssued n 0])
  | .settleFetch tid o =>
    match s.tasks.find? (fun t => t.id = tid ∧ t.phase = .fetching) with
    | none => (s, [])
    | some t =>
      match runAttempt o with
      | .done b =>
        -- Lines 284-290: cache the result; then the `validateWord`
        -- continuation applies it in the same drain.
        let s1 := { s with cache := s.cache.set t.word b }
        applyResolved (s1.dropTask tid) t.word b
      | .caught c response =>
        if isAbortRethrow c then
          -- Line 293-296 then 439-458: silent abandonment, but the
          -- `finally` still nulls the (possibly newer) controller ref.
          (applyRejected (s.dropTask tid) c, [])
        else
          let errorType := classifyCaught c response
          if decide (t.retryCount < API_CONFIG_MAX_RETRIES) &&
              retryableKinds.contains errorType then
            -- Lines 311-318: schedule the retry delay (the abort signal is
            -- not consulted and the timer is never cancelled).
            ({ s with tasks := s.tasks.map fun u =>
                 if u.id = tid then { u with phase := .sleeping } else u },
             [.slept API_CONFIG_RETRY_DELAY_MS])
          else
            (applyRejected (s.dropTask tid)
               (.api errorType (getErrorMessage errorType)), [])
  | .wakeRetry tid =>
    match s.tasks.find? (fun t => t.id = tid ∧ t.phase = .sleeping) with
    | none => (s, [])
    | some t =>
      -- Line 318: recursive `checkDictionaryAPI(word, signal, retryCount+1)`.
      match s.cache.get? t.word with
      | some v =>
        -- Lines 239-242: the cache is consulted *before* the signal is
        -- ever looked at, so a cancelled task still returns — and its
        -- `validateWord` continuation still applies — a cached result.
        applyResolved (s.dropTask tid) t.word v
      | none =>
        let s1 := { s with cache := s.cache.evictIfAtCapacity }
        if s1.abortedCtrls.contains t.ctrl then
          -- `fetch` with an already-aborted signal rejects immediately
          -- with an AbortError; rethrown (line 293) and dropped silently.
          (applyRejected (s1.dropTask tid)
             (.js ⟨"AbortError", "The user aborted a request."⟩), [])
        else
          ({ s1 with tasks := s1.tasks.map fun u =>
               if u.id = tid then
                 { u with phase := .fetching, retryCount := u.retryCount + 1 }
               else u },
           [.fetchIssued t.word (t.retryCount + 1)])

/-- Run a schedule from a state, discarding events. -/
def runSched (cfg : ValidationConfig) (s : GState) (steps : List SchedStep) :
    GState :=
  steps.foldl (fun st sc => (step cfg st sc).1) s

/-- Tasks whose request is genuinely in flight: suspended on a `fetch`
    whose controller has not been aborted. -/
def GState.liveFetches (s : GState) : List VTask :=
  s.tasks.filter fun t => t.phase == .fetching && !s.abortedCtrls.contains t.ctrl

/-! ## Concrete demonstration data -/

/-- A hook instance as wired by `WordInput`/`AppContent`: center letter
    `'a'`, default `minWordLength = 4`. -/
def demoCfg : ValidationConfig := ⟨['a'], 4⟩

def wordABCD : Word := ['a', 'b', 'c', 'd']
def wordBCDA : Word := ['b', 'c', 'd', 'a']
def wordCDAB : Word := ['c', 'd', 'a', 'b']
def wordABCE : Word := ['a', 'b', 'c', 'e']

/-- A dictionary hit: HTTP 200 with one entry carrying a `word` field. -/
def foundOutcome (w : String) : FetchOutcome :=
  .resolved 200 (.json (.arr [⟨some w⟩]))

/-- A transient network failure, as a browser reports it. -/
def networkFailure : FetchOutcome := .rejected ⟨"TypeError", "Failed to fetch"⟩

/-- The rejection an aborted in-flight `fetch` produces. -/
def abortRejection : FetchOutcome :=
  .rejected ⟨"AbortError", "The user aborted a request."⟩

/-- Does an event list record an outbound dictionary request? -/
def isFetchEvent : Event → Bool
  | .fetchIssued _ _ => true
  | _ => false

/-- Well-formedness of the cache model: within capacity, ghost insertion
    timestamps strictly increasing along the (oldest-first) list and below
    the clock, and no JS-falsy (empty) keys. -/
def CacheWf (c : Cache) : Prop :=
  c.size ≤ API_CONFIG_CACHE_SIZE_LIMIT ∧
  c.entries.Pairwise (fun a b => a.insertedAt < b.insertedAt) ∧
  (∀ e ∈ c.entries, e.insertedAt < c.clock) ∧
  (∀ e ∈ c.entries, e.key ≠ [])

instance : DecidablePred CacheWf := fun c => by
  unfold CacheWf; infer_instance

/-- A full cache with 1000 single-character keys, for exercising eviction. -/
def fullDemoCache : Cache :=
  ⟨(List.range API_CONFIG_CACHE_SIZE_LIMIT).map fun i => ⟨['x'], true, i⟩,
   API_CONFIG_CACHE_SIZE_LIMIT⟩

/-! # Theorems -/

/-- C1.  The at-most-one-in-flight claim fails on the code: after
    submissions w1, w2 (w2's `validateWord` aborts w1's controller) and the
    resulting abort rejection of w1's fetch — whose `finally` block (line
    457) nulls `abortControllerRef.current` even though the ref now holds
    w2's controller — a third submission w3 begins while w2's remote check
    is still pending, performs **no** cancellation (its event list contains
    a fetch issue but no abort), and leaves **two** un-aborted requests in
    flight. -/
theorem C1_two_requests_in_flight :
    ((step demoCfg
        (runSched demoCfg GState.initial
          [.submit wordABCD, .submit wordBCDA, .settleFetch 0 abortRejection])
        (.submit wordCDAB)).2 = [Event.fetchIssued wordCDAB 0]) ∧
    ((runSched demoCfg GState.initial
        [.submit wordABCD, .submit wordBCDA, .settleFetch 0 abortRejection,
         .submit wordCDAB]).liveFetches.length = 2) := by
  decide

/-- C2.  The claim that a superseded (cancelled) submission's resolution is
    never applied fails on the code: no cancellation check precedes the
    side effects.  Schedule: "abcd" is submitted, its attempt fails with a
    retryable network error and enters the 1s retry sleep; "abcd" is
    submitted again — cancelling the first validation (controller 0 is
    aborted) — and succeeds, caching the result and appending the word;
    the first validation's retry timer then fires, hits the cache *before
    ever consulting its aborted signal* (line 239 precedes any signal use)
    and its `validateWord` continuation appends the word a second time and
    re-notifies the progress tracker. -/
theorem C2_cancelled_resolution_applied :
    ((runSched demoCfg GState.initial
        [.submit wordABCD, .settleFetch 0 networkFailure, .submit wordABCD,
         .settleFetch 1 (foundOutcome "abcd"), .wakeRetry 0]).foundWords =
      [wordABCD, wordABCD]) ∧
    ((runSched demoCfg GState.initial
        [.submit wordABCD, .settleFetch 0 networkFailure, .submit wordABCD,
         .settleFetch 1 (foundOutcome "abcd"), .wakeRetry 0]).abortedCtrls =
      [0]) := by
  decide

/-- C4.  The 5-second-timeout claim fails on the code: the timer callback
    guards its abort with `'abort' in options.signal`, but a standard
    `AbortSignal` instance has no `abort` member (that method lives on
    `AbortController`), so the timer never aborts anything and a slow
    attempt is not cut off at 5s.  Moreover even a rejection carrying the
    timer's would-be `Error('timeout')` (name `"Error"`) is classified
    `UNKNOWN` — not `TIMEOUT` — and `UNKNOWN` is not retryable; `TIMEOUT`
    is only ever assigned to `AbortError`-named errors whose message
    mentions "timeout", which this path cannot produce. -/
theorem C4_timeout_never_fires :
    (abortSignalInstanceMembers.contains "abort" = false) ∧
    (∀ s : SignalState, fetchTimeoutTimerFire s = s) ∧
    (getErrorTypeCore ⟨"Error", "timeout"⟩ none = DictionaryErrorType.UNKNOWN) ∧
    (retryableKinds.contains DictionaryErrorType.UNKNOWN = false) ∧
    (∀ (e : JSError) (r : Option JSResponse),
      (getErrorTypeCore e r == DictionaryErrorType.TIMEOUT) =
        (e.name == "AbortError" && strIncludes e.message "timeout")) := by
  refine ⟨by decide, fun s => by simp [fetchTimeoutTimerFire, abortSignalInstanceMembers],
    by decide, by decide, fun e r => ?_⟩
  have hstat : ∀ s : Nat, (statusErrorType s == DictionaryErrorType.TIMEOUT) = false := by
    intro s
    unfold statusErrorType
    split_ifs <;> rfl
  unfold getErrorTypeCore
  by_cases h1 : (e.name == "TypeError" && strIncludes e.message "fetch") = true
  · have h1' := h1
    rw [Bool.and_eq_true] at h1'
    have hn : e.name = "TypeError" := eq_of_beq h1'.1
    simp [h1, hn, h1'.2]
  · by_cases h2 : (e.name == "AbortError" && strIncludes e.message "timeout") = true
    · simp [h1, h2]
    · have hr : (e.name == "AbortError" && strIncludes e.message "timeout") = false := by
        simpa using h2
      rw [if_neg h1, if_neg h2, hr]
      rcases r with _ | r
      · rfl
      · exact hstat r.status

/-- C3, counterexample.  Progress is *not* bounded by 1: accepted words
    need only be dictionary-valid, not members of the puzzle's word list,
    so with a puzzle of 1 total word the session accepting "abcd" and
    "abce" reaches progress 2. -/
theorem C3_counterexample :
    ((runSession demoCfg SessState.initial
        [(wordABCD, fun _ => foundOutcome "abcd"),
         (wordABCE, fun _ => foundOutcome "abce")]).foundWords.length = 2) ∧
    (progress 1
      (runSession demoCfg SessState.initial
        [(wordABCD, fun _ => foundOutcome "abcd"),
         (wordABCE, fun _ => foundOutcome "abce")]).foundWords.length = 2) ∧
    ¬(progress 1
      (runSession demoCfg SessState.initial
        [(wordABCD, fun _ => foundOutcome "abcd"),
         (wordABCE, fun _ => foundOutcome "abce")]).foundWords.length ≤ 1) := by
  have hlen : (runSession demoCfg SessState.initial
      [(wordABCD, fun _ => foundOutcome "abcd"),
       (wordABCE, fun _ => foundOutcome "abce")]).foundWords.length = 2 := by
    decide
  refine ⟨hlen, ?_, ?_⟩ <;> rw [hlen] <;> norm_num [progress]

/-- C6, counterexample.  An explicit not-found signal (HTTP 404) is *not*
    interpreted as a normal `false` result: `checkDictionaryAPI` surfaces
    it as a thrown `WORD_NOT_FOUND` error (and caches nothing). -/
theorem C6_counterexample :
    ((checkDictionaryAPIRun (fun _ => .resolved 404 (.json (.arr []))) wordABCD
        Cache.empty).2.1 =
      .error (.api DictionaryErrorType.WORD_NOT_FOUND notAValidWordMsg)) ∧
    (∀ b : Bool,
      (checkDictionaryAPIRun (fun _ => .resolved 404 (.json (.arr []))) wordABCD
        Cache.empty).2.1 ≠ .ok b) ∧
    ((checkDictionaryAPIRun (fun _ => .resolved 404 (.json (.arr []))) wordABCD
        Cache.empty).1.get? wordABCD = none) := by
  refine ⟨by decide, fun b => by cases b <;> decide, by decide⟩

/-! ### Helper lemmas about the local rules -/

theorem localRuleFailure_some (cfg : ValidationConfig) (st : SessState)
    (w : Word) (oracle : Nat → FetchOutcome) (m : String)
    (h : localRuleFailure cfg st.foundWords (normalize w) = some m) :
    validateWordSeq cfg st w oracle =
      ({ st with errorMessage := some m }, .rejectedLocal m, []) := by
  unfold validateWordSeq
  simp only [h]

theorem rejectedLocal_inv (cfg : ValidationConfig) (st : SessState)
    (w : Word) (oracle : Nat → FetchOutcome) (m : String)
    (h : (validateWordSeq cfg st w oracle).2.1 = .rejectedLocal m) :
    localRuleFailure cfg st.foundWords (normalize w) = some m := by
  unfold validateWordSeq at h
  rcases hl : localRuleFailure cfg st.foundWords (normalize w) with _ | msg
  · simp only [hl] at h
    rcases hc : checkDictionaryAPIRun oracle (normalize w) st.cache with ⟨c', r, evs⟩
    rcases r with e | b
    · simp only [hc] at h
      split at h <;> simp at h
    · rcases b <;> simp only [hc] at h <;> simp at h
  · simp only [hl] at h
    simp at h
    rw [h]

theorem jsIncludes_nil (s : Word) : jsIncludes s [] = true := by
  cases s with
  | nil => rfl
  | cons a t => simp [jsIncludes, List.isPrefixOf]

/-- C9.  `validateWord` normalizes (trim + lowercase) and then applies the
    local rules in order — minimum length, center letter, duplicate —
    short-circuiting on the first failing rule with that rule's message and
    issuing no remote lookup (empty event trace); in particular a word
    whose normalized length is below the minimum is rejected with the
    too-short message.  Any local rejection is exactly what
    `localRuleFailure` (the ordered rule list of lines 370-402) dictates. -/
theorem C9_local_rules_ordered :
    ∀ (cfg : ValidationConfig) (st : SessState) (w : Word)
      (oracle : Nat → FetchOutcome),
      ((normalize w).length < cfg.minWordLength →
        (validateWordSeq cfg st w oracle).2.1 =
          .rejectedLocal (lengthMsg cfg.minWordLength) ∧
        (validateWordSeq cfg st w oracle).2.2 = []) ∧
      (lengthRuleOk cfg (normalize w) = true →
        centerRuleOk cfg (normalize w) = false →
        (validateWordSeq cfg st w oracle).2.1 =
          .rejectedLocal (centerMsg cfg.centerLetter) ∧
        (validateWordSeq cfg st w oracle).2.2 = []) ∧
      (lengthRuleOk cfg (normalize w) = true →
        centerRuleOk cfg (normalize w) = true →
        duplicateRuleOk st.foundWords (normalize w) = false →
        (validateWordSeq cfg st w oracle).2.1 = .rejectedLocal duplicateMsg ∧
        (validateWordSeq cfg st w oracle).2.2 = []) ∧
      (∀ m, (validateWordSeq cfg st w oracle).2.1 = .rejectedLocal m →
        localRuleFailure cfg st.foundWords (normalize w) = some m) := by
  intro cfg st w oracle
  refine ⟨?_, ?_, ?_, fun m h => rejectedLocal_inv cfg st w oracle m h⟩
  · intro hshort
    have hlen : lengthRuleOk cfg (normalize w) = false := by
      simp [lengthRuleOk]
      omega
    have := localRuleFailure_some cfg st w oracle (lengthMsg cfg.minWordLength)
      (by simp [localRuleFailure, hlen])
    rw [this]
    exact ⟨rfl, rfl⟩
  · intro hlen hcenter
    have := localRuleFailure_some cfg st w oracle (centerMsg cfg.centerLetter)
      (by simp [localRuleFailure, hlen, hcenter])
    rw [this]
    exact ⟨rfl, rfl⟩
  · intro hlen hcenter hdup
    have := localRuleFailure_some cfg st w oracle duplicateMsg
      (by simp [localRuleFailure, hlen, hcenter, hdup])
    rw [this]
    exact ⟨rfl, rfl⟩

/-- C9 witness: the spec's own scenario — center letter 'a', minimum 4,
    candidate "cat" — is rejected as too short with no remote call. -/
theorem C9_witness :
    (normalize ['c', 'a', 't']).length < demoCfg.minWordLength ∧
    ((validateWordSeq demoCfg SessState.initial ['c', 'a', 't']
        (fun _ => networkFailure)).2.1 = .rejectedLocal (lengthMsg 4) ∧
     (validateWordSeq demoCfg SessState.initial ['c', 'a', 't']
        (fun _ => networkFailure)).2.2 = []) :=
  ⟨by decide,
   (C9_local_rules_ordered demoCfg SessState.initial ['c', 'a', 't']
      (fun _ => networkFailure)).1 (by decide)⟩

/-- C10.  With an empty configured center letter the center rule accepts
    every candidate (every string contains the empty string): the rule
    check is constantly true, the ordered rule list degenerates to the
    length and duplicate rules (so every candidate passing the length rule
    proceeds to the duplicate rule and, if not a duplicate, to the remote
    check), and no call ever rejects with the missing-center-letter
    reason. -/
theorem C10_empty_center_letter :
    ∀ (cfg : ValidationConfig) (st : SessState) (w : Word)
      (oracle : Nat → FetchOutcome), cfg.centerLetter = [] →
      centerRuleOk cfg (normalize w) = true ∧
      localRuleFailure cfg st.foundWords (normalize w) =
        (if lengthRuleOk cfg (normalize w) then
          (if duplicateRuleOk st.foundWords (normalize w) then none
           else some duplicateMsg)
         else some (lengthMsg cfg.minWordLength)) ∧
      (∀ m, (validateWordSeq cfg st w oracle).2.1 = .rejectedLocal m →
        m = lengthMsg cfg.minWordLength ∨ m = duplicateMsg) := by
  intro cfg st w oracle hc
  have hcr : centerRuleOk cfg (normalize w) = true := by
    rw [centerRuleOk, hc]
    exact jsIncludes_nil (normalize w)
  refine ⟨hcr, ?_, ?_⟩
  · unfold localRuleFailure
    rw [hcr]
    rcases h : lengthRuleOk cfg (normalize w) <;>
      rcases h2 : duplicateRuleOk st.foundWords (normalize w) <;> simp
  · intro m hm
    have := rejectedLocal_inv cfg st w oracle m hm
    unfold localRuleFailure at this
    rw [hcr] at this
    rcases h : lengthRuleOk cfg (normalize w) <;> rw [h] at this <;>
      rcases h2 : duplicateRuleOk st.foundWords (normalize w) <;>
        rw [h2] at this <;> simp at this <;> simp [this]

/-- C10 witness: center letter `""`, the four-letter non-duplicate "bcde"
    passes the degenerate rule list outright. -/
theorem C10_witness :
    (⟨[], 4⟩ : ValidationConfig).centerLetter = [] ∧
    (centerRuleOk ⟨[], 4⟩ (normalize ['b', 'c', 'd', 'e']) = true ∧
     localRuleFailure ⟨[], 4⟩ SessState.initial.foundWords
       (normalize ['b', 'c', 'd', 'e']) = none) := by
  have h := C10_empty_center_letter ⟨[], 4⟩ SessState.initial ['b', 'c', 'd', 'e']
    (fun _ => networkFailure) rfl
  refine ⟨rfl, h.1, ?_⟩
  rw [h.2.1]
  decide

/-! ### Helper lemmas about the cache and the retry loop -/

theorem cache_get?_eq_none_iff (c : Cache) (w : Word) :
    c.get? w = none ↔ ∀ e ∈ c.entries, ¬(e.key == w) = true := by
  simp [Cache.get?, Option.map_eq_none', List.find?_eq_none]

theorem evict_mem (c : Cache) (e : CacheEntry)
    (he : e ∈ c.evictIfAtCapacity.entries) : e ∈ c.entries := by
  rcases c with ⟨entries, ck⟩
  unfold Cache.evictIfAtCapacity at he
  split at he
  · rcases entries with _ | ⟨e0, rest⟩
    · exact he
    · have he' : e ∈ (if e0.key = [] then (⟨e0 :: rest, ck⟩ : Cache)
          else (⟨rest, ck⟩ : Cache)).entries := he
      by_cases hk : e0.key = []
      · rw [if_pos hk] at he'
        exact he'
      · rw [if_neg hk] at he'
        exact List.mem_cons_of_mem _ he'
  · exact he

theorem evict_preserves_none (c : Cache) (w : Word) (h : c.get? w = none) :
    c.evictIfAtCapacity.get? w = none := by
  rw [cache_get?_eq_none_iff] at h ⊢
  intro e he
  exact h e (evict_mem c e he)

/-- Unfolding one retrying attempt of `checkDictionaryAPI` (cache miss,
    caught error, not an abort, retry granted). -/
theorem checkDict_step_retry (oracle : Nat → FetchOutcome) (w : Word)
    (cache : Cache) (r fuel : Nat) (c : CaughtErr) (resp : Option JSResponse)
    (hMiss : cache.get? w = none)
    (hA : runAttempt (oracle r) = .caught c resp)
    (hNoAb : isAbortRethrow c = false)
    (hLt : r < API_CONFIG_MAX_RETRIES)
    (hRet : retryableKinds.contains (classifyCaught c resp) = true) :
    checkDictionaryAPI oracle w cache r (fuel + 1) =
      ((checkDictionaryAPI oracle w cache.evictIfAtCapacity (r + 1) fuel).1,
       (checkDictionaryAPI oracle w cache.evictIfAtCapacity (r + 1) fuel).2.1,
       .fetchIssued w r :: .slept API_CONFIG_RETRY_DELAY_MS ::
         (checkDictionaryAPI oracle w cache.evictIfAtCapacity (r + 1) fuel).2.2) := by
  have hcond : (decide (r < API_CONFIG_MAX_RETRIES) &&
      retryableKinds.contains (classifyCaught c resp)) = true := by
    rw [hRet]
    simp [hLt]
  conv_lhs => rw [checkDictionaryAPI]
  rw [hMiss, hA]
  simp only [hNoAb, Bool.false_eq_true, if_false]
  rw [if_pos hcond]

/-- Unfolding one final attempt of `checkDictionaryAPI` (cache miss, caught
    error, not an abort, retry denied): surfaces the user-facing error. -/
theorem checkDict_step_fail (oracle : Nat → FetchOutcome) (w : Word)
    (cache : Cache) (r fuel : Nat) (c : CaughtErr) (resp : Option JSResponse)
    (hMiss : cache.get? w = none)
    (hA : runAttempt (oracle r) = .caught c resp)
    (hNoAb : isAbortRethrow c = false)
    (hStop : (decide (r < API_CONFIG_MAX_RETRIES) &&
      retryableKinds.contains (classifyCaught c resp)) = false) :
    checkDictionaryAPI oracle w cache r fuel =
      (cache.evictIfAtCapacity,
       .error (.api (classifyCaught c resp)
         (getErrorMessage (classifyCaught c resp))),
       [.fetchIssued w r]) := by
  conv_lhs => rw [checkDictionaryAPI]
  rw [hMiss, hA]
  simp only [hNoAb, Bool.false_eq_true, if_false]
  rw [if_neg (show ¬_ = true by rw [hStop]; exact Bool.false_ne_true)]

/-- C5.  The retry policy: for a remote check whose every attempt fails
    with the same caught error (not an abort), a retryable classification —
    the kinds `NETWORK_ERROR`, `API_UNAVAILABLE`, `TIMEOUT` of
    `retryableKinds` — yields exactly 3 attempts (1 + MAX_RETRIES) with a
    fixed 1000 ms delay between consecutive attempts and then surfaces the
    corresponding user-facing message, while a non-retryable classification
    (e.g. rate-limited, malformed response) fails immediately after a
    single attempt with its user-facing message. -/
theorem C5_retry_policy :
    ∀ (o : FetchOutcome) (c : CaughtErr) (resp : Option JSResponse)
      (w : Word) (cache : Cache),
      runAttempt o = .caught c resp →
      isAbortRethrow c = false →
      cache.get? w = none →
      (retryableKinds.contains (classifyCaught c resp) = true →
        (checkDictionaryAPIRun (fun _ => o) w cache).2 =
          (.error (.api (classifyCaught c resp)
             (getErrorMessage (classifyCaught c resp))),
           [.fetchIssued w 0, .slept API_CONFIG_RETRY_DELAY_MS,
            .fetchIssued w 1, .slept API_CONFIG_RETRY_DELAY_MS,
            .fetchIssued w 2])) ∧
      (retryableKinds.contains (classifyCaught c resp) = false →
        (checkDictionaryAPIRun (fun _ => o) w cache).2 =
          (.error (.api (classifyCaught c resp)
             (getErrorMessage (classifyCaught c resp))),
           [.fetchIssued w 0])) := by
  intro o c resp w cache hA hNoAb hMiss
  have hMiss1 := evict_preserves_none cache w hMiss
  have hMiss2 := evict_preserves_none _ w hMiss1
  constructor
  · intro hRet
    have e1 := checkDict_step_retry (fun _ => o) w cache 0 API_CONFIG_MAX_RETRIES
      c resp hMiss hA hNoAb (by norm_num [API_CONFIG_MAX_RETRIES]) hRet
    have e2 := checkDict_step_retry (fun _ => o) w cache.evictIfAtCapacity 1 1
      c resp hMiss1 hA hNoAb (by norm_num [API_CONFIG_MAX_RETRIES]) hRet
    have e3 := checkDict_step_fail (fun _ => o) w
      cache.evictIfAtCapacity.evictIfAtCapacity 2 1 c resp hMiss2 hA hNoAb
      (by rw [hRet]; simp [API_CONFIG_MAX_RETRIES])
    have hM2 : API_CONFIG_MAX_RETRIES = 1 + 1 := rfl
    rw [checkDictionaryAPIRun, e1, hM2] at *
    rw [Nat.zero_add] at *
    rw [e2, e3]
  · intro hRet
    have hStop : (decide (0 < API_CONFIG_MAX_RETRIES) &&
        retryableKinds.contains (classifyCaught c resp)) = false := by
      rw [hRet]
      simp
    rw [checkDictionaryAPIRun,
      checkDict_step_fail (fun _ => o) w cache 0 (API_CONFIG_MAX_RETRIES + 1)
        c resp hMiss hA hNoAb hStop]

/-- C5 witness: a permanent network failure gives 3 attempts then the
    network message; a 429 gives a single attempt and the rate-limit
    message. -/
theorem C5_witness :
    (runAttempt networkFailure =
      .caught (.js ⟨"TypeError", "Failed to fetch"⟩) none ∧
     isAbortRethrow (.js ⟨"TypeError", "Failed to fetch"⟩) = false ∧
     Cache.empty.get? wordABCD = none ∧
     retryableKinds.contains
       (classifyCaught (.js ⟨"TypeError", "Failed to fetch"⟩) none) = true) ∧
    (checkDictionaryAPIRun (fun _ => networkFailure) wordABCD Cache.empty).2 =
      (.error (.api DictionaryErrorType.NETWORK_ERROR
         (getErrorMessage DictionaryErrorType.NETWORK_ERROR)),
       [.fetchIssued wordABCD 0, .slept API_CONFIG_RETRY_DELAY_MS,
        .fetchIssued wordABCD 1, .slept API_CONFIG_RETRY_DELAY_MS,
        .fetchIssued wordABCD 2]) :=
  ⟨⟨by decide, by decide, by decide, by decide⟩,
   (C5_retry_policy networkFailure (.js ⟨"TypeError", "Failed to fetch"⟩) none
      wordABCD Cache.empty (by decide) (by decide) (by decide)).1 (by decide)⟩

/-! ### Helper lemmas for the cache round-trip -/

theorem find?_overwrite (entries : List CacheEntry) (w : Word) (v : Bool)
    (h : (entries.find? (·.key == w)).isSome) :
    ((entries.map fun e => if e.key == w then { e with isValid := v } else e).find?
        (fun e => e.key == w)).map (·.isValid) = some v := by
  induction entries with
  | nil => simp at h
  | cons e0 rest ih =>
    by_cases hk : (e0.key == w) = true
    · rw [List.map_cons, if_pos hk, List.find?_cons]
      simp [hk]
    · have hk' : (e0.key == w) = false := by simpa using hk
      rw [List.map_cons, if_neg hk, List.find?_cons, hk']
      rw [List.find?_cons, hk'] at h
      exact ih h

theorem cache_get?_set_self (c : Cache) (w : Word) (v : Bool) :
    (c.set w v).get? w = some v := by
  rcases c with ⟨entries, ck⟩
  by_cases h : (entries.find? (fun e => e.key == w)).isSome
  · unfold Cache.set Cache.get?
    rw [if_pos h]
    exact find?_overwrite entries w v h
  · unfold Cache.set Cache.get?
    rw [if_neg h]
    simp only
    rw [List.find?_append, Option.not_isSome_iff_eq_none.mp h]
    simp

/-- A cache hit returns the memoized value untouched, with no events. -/
theorem checkDict_hit (oracle : Nat → FetchOutcome) (w : Word) (cache : Cache)
    (r fuel : Nat) (b : Bool) (h : cache.get? w = some b) :
    checkDictionaryAPI oracle w cache r fuel = (cache, .ok b, []) := by
  conv_lhs => rw [checkDictionaryAPI]
  rw [h]

/-- A definitive attempt evicts (if at capacity) and then caches. -/
theorem checkDict_step_done (oracle : Nat → FetchOutcome) (w : Word)
    (cache : Cache) (r fuel : Nat) (b : Bool) (hMiss : cache.get? w = none)
    (hA : runAttempt (oracle r) = .done b) :
    checkDictionaryAPI oracle w cache r fuel =
      (cache.evictIfAtCapacity.set w b, .ok b, [.fetchIssued w r]) := by
  conv_lhs => rw [checkDictionaryAPI]
  rw [hMiss, hA]

/-- An aborted (non-timeout) attempt rethrows without caching. -/
theorem checkDict_step_abort (oracle : Nat → FetchOutcome) (w : Word)
    (cache : Cache) (r fuel : Nat) (c : CaughtErr) (resp : Option JSResponse)
    (hMiss : cache.get? w = none)
    (hA : runAttempt (oracle r) = .caught c resp)
    (hAb : isAbortRethrow c = true) :
    checkDictionaryAPI oracle w cache r fuel =
      (cache.evictIfAtCapacity, .error c, [.fetchIssued w r]) := by
  conv_lhs => rw [checkDictionaryAPI]
  rw [hMiss, hA]
  simp [hAb]

/-- With no fuel left, a granted retry degenerates into the surfaced
    error (unreachable from the source's entry point). -/
theorem checkDict_step_exhausted (oracle : Nat → FetchOutcome) (w : Word)
    (cache : Cache) (r : Nat) (c : CaughtErr) (resp : Option JSResponse)
    (hMiss : cache.get? w = none)
    (hA : runAttempt (oracle r) = .caught c resp)
    (hNoAb : isAbortRethrow c = false)
    (hCond : (decide (r < API_CONFIG_MAX_RETRIES) &&
      retryableKinds.contains (classifyCaught c resp)) = true) :
    checkDictionaryAPI oracle w cache r 0 =
      (cache.evictIfAtCapacity,
       .error (.api (classifyCaught c resp)
         (getErrorMessage (classifyCaught c resp))),
       [.fetchIssued w r]) := by
  conv_lhs => rw [checkDictionaryAPI]
  rw [hMiss, hA]
  simp only [hNoAb, Bool.false_eq_true, if_false]
  rw [if_pos hCond]

/-- Whenever `checkDictionaryAPI` returns `.ok b`, the cache it returns
    maps the word to `b` (the write of line 287 happened before the
    return, or the value was already cached). -/
theorem checkDict_ok_cached :
    ∀ (fuel : Nat) (oracle : Nat → FetchOutcome) (w : Word) (cache : Cache)
      (r : Nat) (b : Bool),
      (checkDictionaryAPI oracle w cache r fuel).2.1 = .ok b →
      ((checkDictionaryAPI oracle w cache r fuel).1).get? w = some b := by
  intro fuel
  induction fuel with
  | zero =>
    intro oracle w cache r b h
    rcases hg : cache.get? w with _ | v
    · rcases hA : runAttempt (oracle r) with b' | ⟨c, resp⟩
      · rw [checkDict_step_done oracle w cache r 0 b' hg hA] at h ⊢
        simp only at h ⊢
        cases h
        exact cache_get?_set_self _ w b
      · by_cases hab : isAbortRethrow c = true
        · rw [checkDict_step_abort oracle w cache r 0 c resp hg hA hab] at h
          simp at h
        · have hab' : isAbortRethrow c = false := by simpa using hab
          by_cases hcond : (decide (r < API_CONFIG_MAX_RETRIES) &&
              retryableKinds.contains (classifyCaught c resp)) = true
          · rw [checkDict_step_exhausted oracle w cache r c resp hg hA hab' hcond] at h
            simp at h
          · rw [checkDict_step_fail oracle w cache r 0 c resp hg hA hab'
              (by simpa using hcond)] at h
            simp at h
    · rw [checkDict_hit oracle w cache r 0 v hg] at h ⊢
      simp only at h ⊢
      cases h
      exact hg
  | succ fuel ih =>
    intro oracle w cache r b h
    rcases hg : cache.get? w with _ | v
    · rcases hA : runAttempt (oracle r) with b' | ⟨c, resp⟩
      · rw [checkDict_step_done oracle w cache r (fuel + 1) b' hg hA] at h ⊢
        simp only at h ⊢
        cases h
        exact cache_get?_set_self _ w b
      · by_cases hab : isAbortRethrow c = true
        · rw [checkDict_step_abort oracle w cache r (fuel + 1) c resp hg hA hab] at h
          simp at h
        · have hab' : isAbortRethrow c = false := by simpa using hab
          by_cases hcond : (decide (r < API_CONFIG_MAX_RETRIES) &&
              retryableKinds.contains (classifyCaught c resp)) = true
          · have hlt : r < API_CONFIG_MAX_RETRIES := by
              have := (Bool.and_eq_true _ _ ▸ hcond).1
              simpa using this
            have hret : retryableKinds.contains (classifyCaught c resp) = true :=
              (Bool.and_eq_true _ _ ▸ hcond).2
            rw [checkDict_step_retry oracle w cache r fuel c resp hg hA hab'
              hlt hret] at h ⊢
            simp only at h ⊢
            exact ih oracle w _ _ b h
          · rw [checkDict_step_fail oracle w cache r (fuel + 1) c resp hg hA hab'
              (by simpa using hcond)] at h
            simp at h
    · rw [checkDict_hit oracle w cache r (fuel + 1) v hg] at h ⊢
      simp only at h ⊢
      cases h
      exact hg

/-- A remote error surfaces as an `errored` outcome. -/
theorem validateWordSeq_remote_error (cfg : ValidationConfig) (st : SessState)
    (w : Word) (oracle : Nat → FetchOutcome) (c' : Cache) (e : CaughtErr)
    (evs : List Event)
    (hl : localRuleFailure cfg st.foundWords (normalize w) = none)
    (hc : checkDictionaryAPIRun oracle (normalize w) st.cache = (c', .error e, evs)) :
    (validateWordSeq cfg st w oracle).2.1 = .errored e := by
  unfold validateWordSeq
  simp only [hl, hc]
  split <;> rfl

/-- A definitive remote result installs the cache the client returned. -/
theorem validateWordSeq_remote_ok_cache (cfg : ValidationConfig) (st : SessState)
    (w : Word) (oracle : Nat → FetchOutcome) (c' : Cache) (b : Bool)
    (evs : List Event)
    (hl : localRuleFailure cfg st.foundWords (normalize w) = none)
    (hc : checkDictionaryAPIRun oracle (normalize w) st.cache = (c', .ok b, evs)) :
    (validateWordSeq cfg st w oracle).1.cache = c' := by
  unfold validateWordSeq
  simp only [hl, hc]
  rcases b <;> rfl

/-- C7.  Cache round-trip: (i) any `checkDictionaryAPI` run that returns a
    definitive result leaves the cache mapping the word to that result —
    the write of line 287 precedes the return; (ii) a cached word resolves
    from the cache alone, with no events at all (in particular no outbound
    request); (iii) consequently, after a `validateWord` call for `w` whose
    remote check completed definitively (outcome accepted or
    rejected-by-dictionary), an immediately following `validateWord` call
    for `w` issues no outbound request. -/
theorem C7_cache_round_trip :
    (∀ (fuel : Nat) (oracle : Nat → FetchOutcome) (w : Word) (cache : Cache)
       (r : Nat) (b : Bool),
       (checkDictionaryAPI oracle w cache r fuel).2.1 = .ok b →
       ((checkDictionaryAPI oracle w cache r fuel).1).get? w = some b) ∧
    (∀ (oracle : Nat → FetchOutcome) (w : Word) (cache : Cache) (r fuel : Nat)
       (b : Bool), cache.get? w = some b →
       checkDictionaryAPI oracle w cache r fuel = (cache, .ok b, [])) ∧
    (∀ (cfg : ValidationConfig) (st : SessState) (w : Word)
       (oracle oracle2 : Nat → FetchOutcome),
       ((validateWordSeq cfg st w oracle).2.1 = .accepted (normalize w) ∨
        (validateWordSeq cfg st w oracle).2.1 = .rejectedRemote) →
       ((validateWordSeq cfg (validateWordSeq cfg st w oracle).1 w
          oracle2).2.2).any isFetchEvent = false) := by
  refine ⟨checkDict_ok_cached, checkDict_hit, ?_⟩
  intro cfg st w oracle oracle2 h
  rcases hl : localRuleFailure cfg st.foundWords (normalize w) with _ | msg
  case some =>
    rw [localRuleFailure_some cfg st w oracle msg hl] at h
    simp at h
  case none =>
    have hcache : ∃ b : Bool,
        (validateWordSeq cfg st w oracle).1.cache.get? (normalize w) = some b := by
      rcases hc : checkDictionaryAPIRun oracle (normalize w) st.cache with ⟨c', res, evs⟩
      rcases res with e | b
      · rcases h with h | h <;>
          rw [validateWordSeq_remote_error cfg st w oracle c' e evs hl hc] at h <;>
          simp at h
      · refine ⟨b, ?_⟩
        rw [validateWordSeq_remote_ok_cache cfg st w oracle c' b evs hl hc]
        have h2 := checkDict_ok_cached (API_CONFIG_MAX_RETRIES + 1) oracle
          (normalize w) st.cache 0 b
        rw [show checkDictionaryAPI oracle (normalize w) st.cache 0
            (API_CONFIG_MAX_RETRIES + 1) =
          checkDictionaryAPIRun oracle (normalize w) st.cache from rfl, hc] at h2
        simpa using h2 rfl
    obtain ⟨b, hb⟩ := hcache
    set st1 := (validateWordSeq cfg st w oracle).1 with hst1
    unfold validateWordSeq
    rcases hl2 : localRuleFailure cfg st1.foundWords (normalize w) with _ | msg2
    · simp only [hl2]
      rw [checkDictionaryAPIRun, checkDict_hit oracle2 (normalize w) st1.cache 0 _ b hb]
      rcases b <;> simp [isFetchEvent]
    · simp [hl2]

/-- C7 witness: validating "abcd" (dictionary hit) then re-validating it
    triggers no second outbound lookup. -/
theorem C7_witness :
    ((validateWordSeq demoCfg SessState.initial wordABCD
        (fun _ => foundOutcome "abcd")).2.1 = .accepted (normalize wordABCD) ∨
     (validateWordSeq demoCfg SessState.initial wordABCD
        (fun _ => foundOutcome "abcd")).2.1 = .rejectedRemote) ∧
    ((validateWordSeq demoCfg
        (validateWordSeq demoCfg SessState.initial wordABCD
          (fun _ => foundOutcome "abcd")).1 wordABCD
        (fun _ => networkFailure)).2.2).any isFetchEvent = false :=
  ⟨Or.inl (by decide),
   C7_cache_round_trip.2.2 demoCfg SessState.initial wordABCD
     (fun _ => foundOutcome "abcd") (fun _ => networkFailure)
     (Or.inl (by decide))⟩

/-! ### Helper lemmas for progress -/

theorem validateWordSeq_remote_error_foundWords (cfg : ValidationConfig)
    (st : SessState) (w : Word) (oracle : Nat → FetchOutcome) (c' : Cache)
    (e : CaughtErr) (evs : List Event)
    (hl : localRuleFailure cfg st.foundWords (normalize w) = none)
    (hc : checkDictionaryAPIRun oracle (normalize w) st.cache = (c', .error e, evs)) :
    (validateWordSeq cfg st w oracle).1.foundWords = st.foundWords := by
  unfold validateWordSeq
  simp only [hl, hc]
  split <;> rfl

theorem validateWordSeq_remote_ok_foundWords (cfg : ValidationConfig)
    (st : SessState) (w : Word) (oracle : Nat → FetchOutcome) (c' : Cache)
    (b : Bool) (evs : List Event)
    (hl : localRuleFailure cfg st.foundWords (normalize w) = none)
    (hc : checkDictionaryAPIRun oracle (normalize w) st.cache = (c', .ok b, evs)) :
    (validateWordSeq cfg st w oracle).1.foundWords =
      st.foundWords ++ (if b then [normalize w] else []) := by
  unfold validateWordSeq
  simp only [hl, hc]
  rcases b <;> simp

/-- `validateWord` only ever appends to the accepted-word list
    (`handleValidWord` in `AppContent.tsx` pushes, never removes). -/
theorem validateWordSeq_foundWords_extend (cfg : ValidationConfig)
    (st : SessState) (w : Word) (oracle : Nat → FetchOutcome) :
    ∃ t, (validateWordSeq cfg st w oracle).1.foundWords = st.foundWords ++ t := by
  rcases hl : localRuleFailure cfg st.foundWords (normalize w) with _ | msg
  · rcases hc : checkDictionaryAPIRun oracle (normalize w) st.cache with ⟨c', res, evs⟩
    rcases res with e | b
    · exact ⟨[], by
        rw [validateWordSeq_remote_error_foundWords cfg st w oracle c' e evs hl hc]
        simp⟩
    · exact ⟨if b then [normalize w] else [],
        validateWordSeq_remote_ok_foundWords cfg st w oracle c' b evs hl hc⟩
  · exact ⟨[], by
      rw [localRuleFailure_some cfg st w oracle msg hl]
      simp⟩

theorem runSession_foundWords_extend (cfg : ValidationConfig) :
    ∀ (subs : List (Word × (Nat → FetchOutcome))) (st : SessState),
      ∃ t, (runSession cfg st subs).foundWords = st.foundWords ++ t := by
  intro subs
  induction subs with
  | nil => exact fun st => ⟨[], by simp [runSession]⟩
  | cons s rest ih =>
    intro st
    obtain ⟨t1, h1⟩ := validateWordSeq_foundWords_extend cfg st s.1 s.2
    obtain ⟨t2, h2⟩ := ih (validateWordSeq cfg st s.1 s.2).1
    refine ⟨t1 ++ t2, ?_⟩
    have : runSession cfg st (s :: rest) =
        runSession cfg (validateWordSeq cfg st s.1 s.2).1 rest := by
      simp [runSession]
    rw [this, h2, h1, List.append_assoc]

theorem progress_mono_in_count (total a b : Nat) (h : a ≤ b) :
    progress total a ≤ progress total b := by
  unfold progress
  split
  · exact le_refl 0
  · exact div_le_div_of_nonneg_right (by exact_mod_cast h) (by positivity)

/-- C3 (amended).  The derived progress value is non-negative, equals 0
    when the puzzle's total valid-word count is 0, is non-decreasing along
    any sequence of submissions, and is bounded by 1 *provided* the number
    of accepted words does not exceed the puzzle's total — a bound the code
    does not enforce, since accepted words need only be dictionary-valid,
    not members of the puzzle's word list (see the counterexample). -/
theorem C3_progress_amended :
    ∀ (total n : Nat) (cfg : ValidationConfig) (st : SessState)
      (subs : List (Word × (Nat → FetchOutcome))),
      0 ≤ progress total n ∧
      progress 0 n = 0 ∧
      (n ≤ total → progress total n ≤ 1) ∧
      progress total st.foundWords.length ≤
        progress total (runSession cfg st subs).foundWords.length := by
  intro total n cfg st subs
  refine ⟨?_, by simp [progress], ?_, ?_⟩
  · unfold progress
    split
    · exact le_refl 0
    · positivity
  · intro hle
    unfold progress
    split
    · exact zero_le_one
    · rename_i h0
      refine (div_le_one ?_).mpr (by exact_mod_cast hle)
      have : 0 < total := Nat.pos_of_ne_zero h0
      exact_mod_cast this
  · obtain ⟨t, ht⟩ := runSession_foundWords_extend cfg subs st
    apply progress_mono_in_count
    rw [ht]
    simp

/-- C3 witness: a 10-word puzzle with 3 accepted words sits at progress
    3/10 ∈ [0, 1], and accepting more words never decreases it. -/
theorem C3_witness :
    (3 ≤ 10 ∧ progress 10 3 ≤ 1) ∧ 0 ≤ progress 10 3 ∧
    progress 10 SessState.initial.foundWords.length ≤
      progress 10 (runSession demoCfg SessState.initial
        [(wordABCD, fun _ => foundOutcome "abcd")]).foundWords.length :=
  ⟨⟨by norm_num,
    (C3_progress_amended 10 3 demoCfg SessState.initial []).2.2.1 (by norm_num)⟩,
   (C3_progress_amended 10 3 demoCfg SessState.initial []).1,
   (C3_progress_amended 10 3 demoCfg SessState.initial
      [(wordABCD, fun _ => foundOutcome "abcd")]).2.2.2⟩

/-! ### C6 amended -/

/-- An ok response whose JSON parses to an array is a definitive attempt. -/
theorem runAttempt_ok_array (status : Nat) (entries : List DictEntry)
    (hok : JSResponse.ok ⟨status⟩ = true) :
    runAttempt (.resolved status (.json (.arr entries))) =
      .done (dataIndicatesValid entries) := by
  simp [runAttempt, hok]

/-- C6 (amended).  Response interpretation: for a cache-missing word, an ok
    (2xx) response with a well-formed array yields `dataIndicatesValid` as
    a normal result — `true` for a non-empty array whose first entry has a
    `word` field, `false` for an empty array (absence of a match) — while
    an explicit not-found signal (HTTP 404) is surfaced as a thrown,
    non-retried `WORD_NOT_FOUND` error carrying the same user-facing
    message as an invalid word, not as a normal `false`. -/
theorem C6_response_interpretation :
    ∀ (w : Word) (cache : Cache) (status : Nat) (entries : List DictEntry),
      cache.get? w = none →
      (JSResponse.ok ⟨status⟩ = true →
        (checkDictionaryAPIRun (fun _ => .resolved status (.json (.arr entries)))
            w cache).2 =
          (.ok (dataIndicatesValid entries), [.fetchIssued w 0])) ∧
      dataIndicatesValid [] = false ∧
      (∀ (s : String) (rest : List DictEntry),
        dataIndicatesValid (⟨some s⟩ :: rest) = true) ∧
      (status = 404 →
        (checkDictionaryAPIRun (fun _ => .resolved status (.json (.arr entries)))
            w cache).2 =
          (.error (.api DictionaryErrorType.WORD_NOT_FOUND notAValidWordMsg),
           [.fetchIssued w 0])) := by
  intro w cache status entries hMiss
  refine ⟨?_, rfl, fun s rest => by simp [dataIndicatesValid], ?_⟩
  · intro hok
    rw [checkDictionaryAPIRun,
      checkDict_step_done (fun _ => .resolved status (.json (.arr entries))) w
        cache 0 (API_CONFIG_MAX_RETRIES + 1) (dataIndicatesValid entries) hMiss
        (runAttempt_ok_array status entries hok)]
  · intro h404
    subst h404
    have hA : runAttempt ((fun _ => FetchOutcome.resolved 404 (.json (.arr entries))) 0) =
        .caught (.js nullNameError) (some ⟨404⟩) := rfl
    rw [checkDictionaryAPIRun,
      checkDict_step_fail (fun _ => .resolved 404 (.json (.arr entries))) w cache
        0 (API_CONFIG_MAX_RETRIES + 1) (.js nullNameError) (some ⟨404⟩) hMiss hA
        (by decide) (by decide)]
    rfl

/-- C6 witness: an ok empty-array response yields `false` normally. -/
theorem C6_witness :
    (Cache.empty.get? wordABCE = none ∧ JSResponse.ok ⟨200⟩ = true) ∧
    (checkDictionaryAPIRun (fun _ => .resolved 200 (.json (.arr []))) wordABCE
        Cache.empty).2 = (.ok false, [.fetchIssued wordABCE 0]) :=
  ⟨⟨by decide, by decide⟩,
   (C6_response_interpretation wordABCE Cache.empty 200 [] (by decide)).1
     (by decide)⟩

/-! ### Helper lemmas for cache capacity and eviction order -/

theorem evict_cases (c : Cache) :
    c.evictIfAtCapacity = c ∨
    (c.evictIfAtCapacity = ⟨c.entries.tail, c.clock⟩ ∧
      c.size ≥ API_CONFIG_CACHE_SIZE_LIMIT) := by
  rcases c with ⟨entries, ck⟩
  unfold Cache.evictIfAtCapacity
  split
  · rename_i hsize
    rcases entries with _ | ⟨e0, rest⟩
    · exact Or.inl rfl
    · by_cases hk : e0.key = []
      · refine Or.inl ?_
        show (if e0.key = [] then (⟨e0 :: rest, ck⟩ : Cache) else ⟨rest, ck⟩) = _
        rw [if_pos hk]
      · refine Or.inr ⟨?_, hsize⟩
        show (if e0.key = [] then (⟨e0 :: rest, ck⟩ : Cache) else ⟨rest, ck⟩) = _
        rw [if_neg hk]
        rfl
  · exact Or.inl rfl

theorem wf_evict (c : Cache) (hwf : CacheWf c) : CacheWf c.evictIfAtCapacity := by
  rcases evict_cases c with h | ⟨h, _⟩
  · rw [h]
    exact hwf
  · rw [h]
    obtain ⟨hsz, hpw, hbound, hkeys⟩ := hwf
    refine ⟨?_, hpw.sublist (List.tail_sublist _), ?_, ?_⟩
    · have := List.length_tail c.entries
      simp only [Cache.size] at hsz ⊢
      omega
    · exact fun e he => hbound e (List.mem_of_mem_tail he)
    · exact fun e he => hkeys e (List.mem_of_mem_tail he)

theorem evict_size_lt (c : Cache) (hwf : CacheWf c) :
    c.evictIfAtCapacity.size < API_CONFIG_CACHE_SIZE_LIMIT := by
  obtain ⟨hsz, _, _, hkeys⟩ := hwf
  rcases c with ⟨entries, ck⟩
  unfold Cache.evictIfAtCapacity
  split
  · rename_i hsize
    rcases entries with _ | ⟨e0, rest⟩
    · simp [Cache.size, API_CONFIG_CACHE_SIZE_LIMIT] at hsize
    · have hk : e0.key ≠ [] := hkeys e0 (by simp)
      show (if e0.key = [] then (⟨e0 :: rest, ck⟩ : Cache) else ⟨rest, ck⟩).size <
        API_CONFIG_CACHE_SIZE_LIMIT
      rw [if_neg hk]
      simp only [Cache.size, List.length_cons] at hsz ⊢
      omega
  · rename_i hsize
    simp only [Cache.size, ge_iff_le, not_le] at hsize
    exact hsize

theorem wf_set_new (c : Cache) (w : Word) (v : Bool) (hwf : CacheWf c)
    (hw : w ≠ []) (hmiss : c.get? w = none)
    (hsize : c.size < API_CONFIG_CACHE_SIZE_LIMIT) : CacheWf (c.set w v) := by
  rcases c with ⟨entries, ck⟩
  obtain ⟨hsz, hpw, hbound, hkeys⟩ := hwf
  have hfind : ¬(entries.find? (fun e => e.key == w)).isSome = true := by
    simp only [Cache.get?, Option.map_eq_none'] at hmiss
    simp [hmiss]
  unfold Cache.set
  rw [if_neg hfind]
  refine ⟨?_, ?_, ?_, ?_⟩
  · simp only [Cache.size, List.length_append, List.length_cons,
      List.length_nil] at hsize ⊢
    omega
  · rw [List.pairwise_append]
    refine ⟨hpw, by simp, ?_⟩
    intro a ha b hb
    simp only [List.mem_singleton] at hb
    subst hb
    exact hbound a ha
  · intro e he
    rcases List.mem_append.mp he with he | he
    · exact Nat.lt_trans (hbound e he) (Nat.lt_succ_self ck)
    · simp only [List.mem_singleton] at he
      subst he
      exact Nat.lt_succ_self ck
  · intro e he
    rcases List.mem_append.mp he with he | he
    · exact hkeys e he
    · simp only [List.mem_singleton] at he
      subst he
      exact hw

/-- `checkDictionaryAPI` preserves cache well-formedness (in particular,
    the cache never exceeds its capacity) for non-empty words. -/
theorem checkDict_wf :
    ∀ (fuel : Nat) (oracle : Nat → FetchOutcome) (w : Word) (cache : Cache)
      (r : Nat), CacheWf cache → w ≠ [] →
      CacheWf (checkDictionaryAPI oracle w cache r fuel).1 := by
  intro fuel
  induction fuel with
  | zero =>
    intro oracle w cache r hwf hw
    rcases hg : cache.get? w with _ | v
    · rcases hA : runAttempt (oracle r) with b' | ⟨c, resp⟩
      · rw [checkDict_step_done oracle w cache r 0 b' hg hA]
        exact wf_set_new _ w b' (wf_evict cache hwf) hw
          (evict_preserves_none cache w hg) (evict_size_lt cache hwf)
      · by_cases hab : isAbortRethrow c = true
        · rw [checkDict_step_abort oracle w cache r 0 c resp hg hA hab]
          exact wf_evict cache hwf
        · have hab' : isAbortRethrow c = false := by simpa using hab
          by_cases hcond : (decide (r < API_CONFIG_MAX_RETRIES) &&
              retryableKinds.contains (classifyCaught c resp)) = true
          · rw [checkDict_step_exhausted oracle w cache r c resp hg hA hab' hcond]
            exact wf_evict cache hwf
          · rw [checkDict_step_fail oracle w cache r 0 c resp hg hA hab'
              (by simpa using hcond)]
            exact wf_evict cache hwf
    · rw [checkDict_hit oracle w cache r 0 v hg]
      exact hwf
  | succ fuel ih =>
    intro oracle w cache r hwf hw
    rcases hg : cache.get? w with _ | v
    · rcases hA : runAttempt (oracle r) with b' | ⟨c, resp⟩
      · rw [checkDict_step_done oracle w cache r (fuel + 1) b' hg hA]
        exact wf_set_new _ w b' (wf_evict cache hwf) hw
          (evict_preserves_none cache w hg) (evict_size_lt cache hwf)
      · by_cases hab : isAbortRethrow c = true
        · rw [checkDict_step_abort oracle w cache r (fuel + 1) c resp hg hA hab]
          exact wf_evict cache hwf
        · have hab' : isAbortRethrow c = false := by simpa using hab
          by_cases hcond : (decide (r < API_CONFIG_MAX_RETRIES) &&
              retryableKinds.contains (classifyCaught c resp)) = true
          · have hlt : r < API_CONFIG_MAX_RETRIES := by
              have := (Bool.and_eq_true _ _ ▸ hcond).1
              simpa using this
            have hret : retryableKinds.contains (classifyCaught c resp) = true :=
              (Bool.and_eq_true _ _ ▸ hcond).2
            rw [checkDict_step_retry oracle w cache r fuel c resp hg hA hab'
              hlt hret]
            exact ih oracle w _ _ (wf_evict cache hwf) hw
          · rw [checkDict_step_fail oracle w cache r (fuel + 1) c resp hg hA hab'
              (by simpa using hcond)]
            exact wf_evict cache hwf
    · rw [checkDict_hit oracle w cache r (fuel + 1) v hg]
      exact hwf

theorem validateWordSeq_remote_error_cache (cfg : ValidationConfig)
    (st : SessState) (w : Word) (oracle : Nat → FetchOutcome) (c' : Cache)
    (e : CaughtErr) (evs : List Event)
    (hl : localRuleFailure cfg st.foundWords (normalize w) = none)
    (hc : checkDictionaryAPIRun oracle (normalize w) st.cache = (c', .error e, evs)) :
    (validateWordSeq cfg st w oracle).1.cache = c' := by
  unfold validateWordSeq
  simp only [hl, hc]
  split <;> rfl

theorem localRuleFailure_none_length (cfg : ValidationConfig)
    (fw : List Word) (n : Word) (h : localRuleFailure cfg fw n = none) :
    lengthRuleOk cfg n = true := by
  rcases hl : lengthRuleOk cfg n
  · exfalso
    unfold localRuleFailure at h
    rw [hl] at h
    simp at h
  · rfl

/-- `validateWord` preserves cache well-formedness when the configured
    minimum length is at least 1 (the default is 4), since every word that
    reaches the remote check is then non-empty. -/
theorem validateWordSeq_wf (cfg : ValidationConfig) (st : SessState)
    (w : Word) (oracle : Nat → FetchOutcome) (hmin : 1 ≤ cfg.minWordLength)
    (hwf : CacheWf st.cache) :
    CacheWf (validateWordSeq cfg st w oracle).1.cache := by
  rcases hl : localRuleFailure cfg st.foundWords (normalize w) with _ | msg
  · have hlen := localRuleFailure_none_length cfg st.foundWords (normalize w) hl
    have hne : normalize w ≠ [] := by
      have : 1 ≤ (normalize w).length := by
        simp only [lengthRuleOk, ge_iff_le, decide_eq_true_eq] at hlen
        omega
      exact List.ne_nil_of_length_pos (by omega)
    have hrun := checkDict_wf (API_CONFIG_MAX_RETRIES + 1) oracle (normalize w)
      st.cache 0 hwf hne
    rcases hc : checkDictionaryAPIRun oracle (normalize w) st.cache with ⟨c', res, evs⟩
    have hc' : c' = (checkDictionaryAPI oracle (normalize w) st.cache 0
        (API_CONFIG_MAX_RETRIES + 1)).1 := by
      rw [show checkDictionaryAPI oracle (normalize w) st.cache 0
          (API_CONFIG_MAX_RETRIES + 1) =
        checkDictionaryAPIRun oracle (normalize w) st.cache from rfl, hc]
    rcases res with e | b
    · rw [validateWordSeq_remote_error_cache cfg st w oracle c' e evs hl hc, hc']
      exact hrun
    · rw [validateWordSeq_remote_ok_cache cfg st w oracle c' b evs hl hc, hc']
      exact hrun
  · rw [localRuleFailure_some cfg st w oracle msg hl]
    exact hwf

theorem runSession_wf (cfg : ValidationConfig) (hmin : 1 ≤ cfg.minWordLength) :
    ∀ (subs : List (Word × (Nat → FetchOutcome))) (st : SessState),
      CacheWf st.cache → CacheWf (runSession cfg st subs).cache := by
  intro subs
  induction subs with
  | nil => exact fun st h => h
  | cons s rest ih =>
    intro st h
    have : runSession cfg st (s :: rest) =
        runSession cfg (validateWordSeq cfg st s.1 s.2).1 rest := by
      simp [runSession]
    rw [this]
    exact ih _ (validateWordSeq_wf cfg st s.1 s.2 hmin h)

/-- C8.  Cache capacity and eviction order: (i) across any sequential
    session (with a positive minimum word length — the default is 4), a
    well-formed cache stays well-formed, in particular never exceeding the
    configured capacity of 1000 entries; (ii) whenever the cache is at
    capacity, the eviction of lines 245-249 removes exactly the single
    oldest-inserted entry — the head of the insertion-ordered store, whose
    ghost insertion timestamp is minimal; (iii) on a definitive first
    attempt for an uncached word, the cache returned is exactly
    `set` applied *after* `evictIfAtCapacity` — the eviction precedes the
    insertion. -/
theorem C8_cache_capacity_and_eviction :
    (∀ (cfg : ValidationConfig) (st : SessState)
       (subs : List (Word × (Nat → FetchOutcome))),
       1 ≤ cfg.minWordLength → CacheWf st.cache →
       CacheWf (runSession cfg st subs).cache ∧
       (runSession cfg st subs).cache.size ≤ API_CONFIG_CACHE_SIZE_LIMIT) ∧
    (∀ c : Cache, CacheWf c → c.size ≥ API_CONFIG_CACHE_SIZE_LIMIT →
       ∃ e0 rest, c.entries = e0 :: rest ∧
         c.evictIfAtCapacity.entries = rest ∧
         ∀ e ∈ c.entries, e0.insertedAt ≤ e.insertedAt) ∧
    (∀ (oracle : Nat → FetchOutcome) (w : Word) (cache : Cache) (b : Bool),
       cache.get? w = none → runAttempt (oracle 0) = .done b →
       (checkDictionaryAPIRun oracle w cache).1 =
         (cache.evictIfAtCapacity).set w b) := by
  refine ⟨?_, ?_, ?_⟩
  · intro cfg st subs hmin hwf
    have h := runSession_wf cfg hmin subs st hwf
    exact ⟨h, h.1⟩
  · intro c hwf hfull
    obtain ⟨hsz, hpw, hbound, hkeys⟩ := hwf
    rcases hc : c.entries with _ | ⟨e0, rest⟩
    · exfalso
      rw [Cache.size, hc] at hfull
      simp [API_CONFIG_CACHE_SIZE_LIMIT] at hfull
    · refine ⟨e0, rest, rfl, ?_, ?_⟩
      · rcases evict_cases c with h | ⟨h, _⟩
        · exfalso
          have hk : e0.key ≠ [] := hkeys e0 (by rw [hc]; simp)
          rcases c with ⟨entries, ck⟩
          simp only at hc
          subst hc
          unfold Cache.evictIfAtCapacity at h
          rw [if_pos hfull] at h
          have h2 : (if e0.key = [] then (⟨e0 :: rest, ck⟩ : Cache)
              else ⟨rest, ck⟩) = ⟨e0 :: rest, ck⟩ := h
          rw [if_neg hk] at h2
          have := congrArg Cache.entries h2
          simp at this
        · rw [h, hc]
          rfl
      · intro e he
        rw [hc] at hpw
        rcases List.mem_cons.mp he with he | he
        · subst he
          exact le_refl _
        · exact Nat.le_of_lt ((List.pairwise_cons.mp hpw).1 e he)
  · intro oracle w cache b hmiss hA
    rw [checkDictionaryAPIRun,
      checkDict_step_done oracle w cache 0 (API_CONFIG_MAX_RETRIES + 1) b hmiss hA]

set_option maxRecDepth 8000 in
theorem fullDemoCache_wf : CacheWf fullDemoCache := by
  refine ⟨?_, ?_, ?_, ?_⟩
  · simp [fullDemoCache, Cache.size]
  · show ((List.range API_CONFIG_CACHE_SIZE_LIMIT).map fun i =>
      (⟨['x'], true, i⟩ : CacheEntry)).Pairwise _
    rw [List.pairwise_map]
    exact List.pairwise_lt_range _
  · intro e he
    simp only [fullDemoCache, List.mem_map, List.mem_range] at he
    obtain ⟨i, hi, rfl⟩ := he
    exact hi
  · intro e he
    simp only [fullDemoCache, List.mem_map, List.mem_range] at he
    obtain ⟨i, hi, rfl⟩ := he
    simp

/-- C8 witness: the empty-cache session stays well-formed, and the full
    1000-entry demo cache evicts exactly its oldest entry. -/
theorem C8_witness :
    (1 ≤ demoCfg.minWordLength ∧ CacheWf SessState.initial.cache ∧
     CacheWf fullDemoCache ∧
     fullDemoCache.size ≥ API_CONFIG_CACHE_SIZE_LIMIT) ∧
    CacheWf (runSession demoCfg SessState.initial
      [(wordABCD, fun _ => foundOutcome "abcd")]).cache ∧
    (∃ e0 rest, fullDemoCache.entries = e0 :: rest ∧
       fullDemoCache.evictIfAtCapacity.entries = rest ∧
       ∀ e ∈ fullDemoCache.entries, e0.insertedAt ≤ e.insertedAt) :=
  ⟨⟨by decide, by decide, fullDemoCache_wf, by simp [fullDemoCache, Cache.size]⟩,
   (C8_cache_capacity_and_eviction.1 demoCfg SessState.initial
      [(wordABCD, fun _ => foundOutcome "abcd")] (by decide) (by decide)).1,
   C8_cache_capacity_and_eviction.2.1 fullDemoCache fullDemoCache_wf
     (by simp [fullDemoCache, Cache.size])⟩

end TriviaTiles
